import Mathlib

/-!
Verification of the filesystem-object core of the file-commander repository
(`src/file-commander-core/src/cfilesystemobject.cpp`).

The C++ class `CFileSystemObject` is embedded shallowly: its cached property
snapshot becomes a Lean structure, the two reference-counted `QFile` handles
become `Option FileHandle` fields, and every operation becomes a pure Lean
function.  Outcomes of OS calls (open, read, write, rename, remove, stat) are
passed in explicitly as environment records, and the on-disk state is an
association list from absolute paths to entry kinds, so that the effect of an
operation on the disk is part of its result.
-/

/-- Kind of a filesystem object.  The enum lives in the header (not part of the
excerpt); the spec's data model lists the variants File, Directory, Other and
Nonexistent, with Nonexistent the default for a never-stated object. -/
inductive FileSystemObjectType where
  | File
  | Directory
  | Other
  | Nonexistent
deriving DecidableEq

/-- Result codes returned by the per-object operations, as used by the source
(`rcOk`, `rcFail`, `rcObjectDoesntExist`, `rcTargetAlreadyExists`). -/
inductive FileOperationResultCode where
  | rcOk
  | rcFail
  | rcObjectDoesntExist
  | rcTargetAlreadyExists
deriving DecidableEq

open FileSystemObjectType FileOperationResultCode

/-- The 64-bit mixing step of fasthash: h ^= h >> 23; h *= 0x2127599bf4325c37;
h ^= h >> 47.  Arithmetic is on Nat, reduced mod 2^64 where the C code
overflows. -/
def mix64 (h : Nat) : Nat :=
  let h1 := h ^^^ (h >>> 23)
  let h2 := (h1 * 0x2127599bf4325c37) % 2 ^ 64
  h2 ^^^ (h2 >>> 47)

/-- Little-endian word made of a list of bytes: byte 0 is least significant,
matching how fasthash64 loads `uint64_t` words and assembles the tail bytes. -/
def bytesToWordLE (bs : List Nat) : Nat :=
  bs.foldr (fun b acc => b % 256 + 256 * acc) 0

/-- Main loop of fasthash64: consume 8-byte words, then fold the leftover
(len mod 8) bytes into one word exactly as the fallthrough switch does. -/
def fasthash64Go (h : Nat) (rest : List Nat) : Nat :=
  if h8 : 8 ≤ rest.length then
    fasthash64Go (((h ^^^ mix64 (bytesToWordLE (rest.take 8))) * 0x880355f21e6d1965) % 2 ^ 64)
      (rest.drop 8)
  else if rest.isEmpty then
    mix64 h
  else
    mix64 (((h ^^^ mix64 (bytesToWordLE rest)) * 0x880355f21e6d1965) % 2 ^ 64)
termination_by rest.length
decreasing_by
  simp [List.length_drop]
  omega

/-- Modelled from the spec: the vendored `fasthash.h` is not part of the
excerpt (`src/` holds only `cfilesystemobject.cpp` and a dialog); this is the
fasthash64 algorithm the spec names in section 4.1, over a byte list, with all
64-bit overflow written as reduction mod 2^64. -/
def fasthash64 (bs : List Nat) (seed : Nat) : Nat :=
  fasthash64Go ((seed ^^^ ((bs.length * 0x880355f21e6d1965) % 2 ^ 64)) % 2 ^ 64) bs

/-- UTF-8 bytes of a string, as the `QString::toUtf8` call produces before
hashing. -/
def utf8Bytes (s : String) : List Nat :=
  s.toUTF8.toList.map (fun b => b.toNat)

/-- Snapshot of one `QFileInfo`: the stat-like record `refreshInfo` reads its
fields from.  Each field models the corresponding `QFileInfo` accessor. -/
structure FileInfo where
  absoluteFilePath : String
  absolutePath : String
  fileName : String
  suffix : String
  completeSuffix : String
  baseName : String
  completeBaseName : String
  existsFlag : Bool
  isFileFlag : Bool
  isDirFlag : Bool
  createdAt : Nat
  lastModified : Nat
  sizeBytes : Nat
deriving DecidableEq

/-- The cached property snapshot `CFileSystemObjectProperties`. -/
structure CFileSystemObjectProperties where
  fullPath : String
  parentFolder : String
  fullName : String
  completeBaseName : String
  extension : String
  existsOnDisk : Bool
  type : FileSystemObjectType
  size : Nat
  creationDate : Nat
  modificationDate : Nat
  hash : Nat
deriving DecidableEq

/-- Sentinel for an unknown volume id: `std::numeric_limits of uint64_t max`. -/
def UINT64_MAX : Nat := 2 ^ 64 - 1

/-- Sentinel creation date marking a never-refreshed object
(`std::numeric_limits of time_t max`). -/
def TIME_T_MAX : Nat := 2 ^ 63 - 1

/-- Default-constructed properties, before the first `refreshInfo`. -/
def emptyProperties : CFileSystemObjectProperties :=
  { fullPath := "", parentFolder := "", fullName := "", completeBaseName := ""
    extension := "", existsOnDisk := false, type := Nonexistent, size := 0
    creationDate := TIME_T_MAX, modificationDate := 0, hash := 0 }

/-- One `QFile` handle held during a chunked copy: the path the `QFile` was
constructed with, whether it is open, and the read position. -/
structure FileHandle where
  path : String
  isOpen : Bool
  pos : Nat
deriving DecidableEq

/-- The `CFileSystemObject` value: the `QFileInfo` it was built from, the
cached properties, the two chunked-copy handles (`_thisFile`, `_destFile`),
the last OS error string, and the memoized volume id. -/
structure CFileSystemObject where
  fileInfo : FileInfo
  properties : CFileSystemObjectProperties
  thisFile : Option FileHandle
  destFile : Option FileHandle
  lastError : String
  rootFileSystemIdCached : Nat
deriving DecidableEq

/-- The host filesystem, as far as these operations observe it: which absolute
paths exist and what kind of entry each one is. -/
def DiskState : Type := List (String × FileSystemObjectType)

/-- Kind of the entry at a path, if the path exists. -/
def diskLookup (fs : DiskState) (p : String) : Option FileSystemObjectType :=
  fs.lookup p

/-- `QFileInfo(p).exists()` against the modelled disk. -/
def diskHas (fs : DiskState) (p : String) : Bool :=
  (diskLookup fs p).isSome

/-- `QFileInfo(p).isFile()` against the modelled disk. -/
def diskIsFile (fs : DiskState) (p : String) : Bool :=
  diskLookup fs p == some File

/-- Effect of a successful rename: the entry moves from `oldP` to `newP`. -/
def diskRename (fs : DiskState) (oldP newP : String) : DiskState :=
  match diskLookup fs oldP with
  | some k => (newP, k) :: fs.filter (fun e => e.1 != oldP)
  | none => fs

/-- QFile::remove against the modelled disk: succeeds iff the file exists and
the OS does not report an error; on success the entry is gone. -/
def diskRemove (osError : Bool) (fs : DiskState) (p : String) : Bool × DiskState :=
  if diskHas fs p && !osError then (true, fs.filter (fun e => e.1 != p))
  else (false, fs)

/-- `CFileSystemObject::refreshInfo`: rebuild the cached properties from the
`QFileInfo`, line for line.  The hash is fasthash64 of the UTF-8 path bytes
with seed 0 (source line 32). -/
def refreshInfo (fi : FileInfo) (props : CFileSystemObjectProperties) :
    CFileSystemObjectProperties :=
  let p0 := { props with existsOnDisk := fi.existsFlag, fullPath := fi.absoluteFilePath }
  let p1 := { p0 with hash := fasthash64 (utf8Bytes p0.fullPath) 0 }
  let p2 :=
    if fi.isFileFlag then { p1 with type := File }
    else if fi.isDirFlag then { p1 with type := Directory }
    else if p1.existsOnDisk then p1
    else if p1.fullPath.endsWith "/" then { p1 with type := Directory }
    else p1
  let p3 :=
    if p2.type = File then
      { p2 with extension := fi.suffix, completeBaseName := fi.completeBaseName }
    else if p2.type = Directory then
      { p2 with completeBaseName :=
          if fi.completeSuffix.isEmpty then fi.baseName
          else fi.baseName ++ "." ++ fi.completeSuffix }
    else p2
  let p4 := { p3 with
    fullName := if p3.type = Directory then p3.completeBaseName else fi.fileName
    parentFolder := fi.absolutePath }
  if !p4.existsOnDisk then p4
  else { p4 with
    creationDate := fi.createdAt
    modificationDate := fi.lastModified
    size := if p4.type = File then fi.sizeBytes else 0 }

/-- The constructor `CFileSystemObject(fileInfo)`: store the info record and
run one `refreshInfo`. -/
def mkCFileSystemObject (fi : FileInfo) : CFileSystemObject :=
  { fileInfo := fi, properties := refreshInfo fi emptyProperties
    thisFile := none, destFile := none, lastError := ""
    rootFileSystemIdCached := UINT64_MAX }

/-- `operator==`: two objects are equal iff their cached hashes are equal. -/
def objectEquals (a b : CFileSystemObject) : Bool :=
  a.properties.hash == b.properties.hash

/-- `hash()` accessor. -/
def hashOf (o : CFileSystemObject) : Nat :=
  o.properties.hash

/-- `fullAbsolutePath()` accessor. -/
def fullAbsolutePath (o : CFileSystemObject) : String :=
  o.properties.fullPath

/-- `isFile()`. -/
def isFile (o : CFileSystemObject) : Bool :=
  o.properties.type == File

/-- `isDir()`. -/
def isDir (o : CFileSystemObject) : Bool :=
  o.properties.type == Directory

/-- `isCdUp()`: the object is the ".." pseudo-entry. -/
def isCdUp (o : CFileSystemObject) : Bool :=
  o.properties.fullName == ".."

/-- `isEmptyDir()`: the directory listing (without "." and "..", with hidden
and system entries) is empty; `false` for anything that is not a directory.
The listing's emptiness is an OS observation and is passed in. -/
def isEmptyDir (listingIsEmpty : Bool) (o : CFileSystemObject) : Bool :=
  if isDir o then listingIsEmpty else false

/-- `setDirSize(size)`: overwrite the cached size, touching nothing else and
making no filesystem call (the function takes no disk state). -/
def setDirSize (sz : Nat) (o : CFileSystemObject) : CFileSystemObject :=
  { o with properties := { o.properties with size := sz } }

/-- `pathHierarchy()`'s loop body, with the toolkit's parent-path function
(`QFileInfo(path).path()`, not part of the excerpt) passed in as `parent`:
keep taking the parent while it is strictly shorter than the last element. -/
def pathHierarchyFrom (parent : String → String) (cur : String) : List String :=
  if h : (parent cur).length < cur.length then
    parent cur :: pathHierarchyFrom parent (parent cur)
  else []
termination_by cur.length

/-- `pathHierarchy()`: the original path, then the chain of parents produced
by the loop (the C++ builds the same sequence with push_back). -/
def pathHierarchy (parent : String → String) (o : CFileSystemObject) : List String :=
  fullAbsolutePath o :: pathHierarchyFrom parent (fullAbsolutePath o)

/-- `rootFileSystemId()`: if the memoized id is still the MAX sentinel, query
the OS (st_dev on POSIX, drive index on Windows); `queryResult` is the
outcome of that query, `none` when it fails.  On failure the POSIX branch
stores the errno string. -/
def rootFileSystemId (queryResult : Option Nat) (queryErrorString : String)
    (o : CFileSystemObject) : Nat × CFileSystemObject :=
  if o.rootFileSystemIdCached == UINT64_MAX then
    match queryResult with
    | some fsid => (fsid, { o with rootFileSystemIdCached := fsid })
    | none => (UINT64_MAX, { o with lastError := queryErrorString })
  else (o.rootFileSystemIdCached, o)

/-- `isMovableTo(dest)`: both volume ids resolve and are equal and neither is
the MAX sentinel.  Both memoizing queries are part of the result. -/
def isMovableTo (queryA queryB : Option Nat) (errA errB : String)
    (o dest : CFileSystemObject) : Bool × CFileSystemObject × CFileSystemObject :=
  let ra := rootFileSystemId queryA errA o
  let rb := rootFileSystemId queryB errB dest
  ((ra.1 == rb.1) && (ra.1 != UINT64_MAX) && (rb.1 != UINT64_MAX), ra.2, rb.2)

/-- `copyOperationInProgress()`: false when neither handle exists, else both
(asserted equal) open-states must hold.  A half-attached pair is
unrepresentable in reachable states (the source asserts it); it maps to
`false` here. -/
def copyOperationInProgress (o : CFileSystemObject) : Bool :=
  match o.thisFile, o.destFile with
  | none, none => false
  | some src, some dst => dst.isOpen && src.isOpen
  | _, _ => false

/-- `bytesCopied()`: the source handle's read position while it is open. -/
def bytesCopied (o : CFileSystemObject) : Nat :=
  match o.thisFile with
  | some src => if src.isOpen then src.pos else 0
  | none => 0

/-- The asserted dual-handle invariant: either no handles are attached, or
both are attached and open. -/
def handlesConsistent (o : CFileSystemObject) : Bool :=
  match o.thisFile, o.destFile with
  | none, none => true
  | some src, some dst => src.isOpen && dst.isOpen
  | _, _ => false

/-- Outcomes of the OS calls one `copyChunk` step can make. -/
structure CopyChunkEnv where
  openSrcOk : Bool
  openSrcErrorString : String
  openDstOk : Bool
  openDstErrorString : String
  readData : List Nat
  bytesWritten : Nat
  srcHasError : Bool
  srcErrorString : String
  dstErrorString : String
deriving DecidableEq

/-- Read-and-write half of `copyChunk` (source lines 319-337): read up to
`chunkSize` bytes; on an empty read release both handles and report
completion; otherwise advance the read position and compare the write's
return value against the data size, keeping both handles attached in both
the full-write and the short-write case. -/
def copyChunkStep (env : CopyChunkEnv) (chunkSize : Int) (o : CFileSystemObject) :
    FileOperationResultCode × CFileSystemObject :=
  let data := env.readData.take chunkSize.toNat
  if data.isEmpty then
    (rcOk, { o with thisFile := none, destFile := none })
  else
    let o1 := { o with
      thisFile := o.thisFile.map (fun h => { h with pos := h.pos + data.length }) }
    if env.bytesWritten == data.length then (rcOk, o1)
    else
      (rcFail, { o1 with lastError :=
        if env.srcHasError then env.srcErrorString else env.dstErrorString })

/-- `copyChunk(chunkSize, destFolder, newName)`: when no copy is in progress,
construct both `QFile`s and open them, releasing both and failing if either
open fails; then perform one read/write step. -/
def copyChunk (env : CopyChunkEnv) (chunkSize : Int)
    (destFolder newName : String) (o : CFileSystemObject) :
    FileOperationResultCode × CFileSystemObject :=
  if !copyOperationInProgress o then
    let dstPath := destFolder ++ (if newName.isEmpty then o.properties.fullName else newName)
    if !env.openSrcOk then
      (rcFail, { o with lastError := env.openSrcErrorString
                        thisFile := none, destFile := none })
    else if !env.openDstOk then
      (rcFail, { o with lastError := env.openDstErrorString
                        thisFile := none, destFile := none })
    else
      copyChunkStep env chunkSize
        { o with
          thisFile := some { path := o.properties.fullPath, isOpen := true, pos := 0 }
          destFile := some { path := dstPath, isOpen := true, pos := 0 } }
  else
    copyChunkStep env chunkSize o

/-- `cancelCopy()`: when a copy is in progress, close both handles, remove
the partial destination file, release both handles, and report whether the
removal succeeded; otherwise do nothing and report success. -/
def cancelCopy (removeOsError : Bool) (fs : DiskState) (o : CFileSystemObject) :
    FileOperationResultCode × CFileSystemObject × DiskState :=
  if copyOperationInProgress o then
    match o.destFile with
    | some dst =>
      let rem := diskRemove removeOsError fs dst.path
      ((if rem.1 then rcOk else rcFail),
       { o with thisFile := none, destFile := none }, rem.2)
    | none => (rcOk, o, fs)
  else (rcOk, o, fs)

/-- Outcomes of the OS calls `moveAtomically` can make. -/
structure MoveEnv where
  renameOk : Bool
  renameErrorString : String
deriving DecidableEq

/-- `moveAtomically(location, newName)` (source lines 245-277): vanished
source and ".." pseudo-entries are rejected first; then the destination path
is `location / (newName or fullName)`; an existing destination is a conflict
when the source is a directory or the destination is a file; otherwise a file
is renamed and refreshed, a directory is renamed without refresh, and any
other kind fails. -/
def moveAtomically (env : MoveEnv) (fs : DiskState) (location newName : String)
    (o : CFileSystemObject) : FileOperationResultCode × CFileSystemObject × DiskState :=
  if !o.properties.existsOnDisk then (rcObjectDoesntExist, o, fs)
  else if isCdUp o then (rcFail, o, fs)
  else
    let fullNewName := location ++ "/" ++
      (if newName.isEmpty then o.properties.fullName else newName)
    if diskHas fs fullNewName && (isDir o || diskIsFile fs fullNewName) then
      (rcTargetAlreadyExists, o, fs)
    else if isFile o then
      if env.renameOk then
        (rcOk, { o with properties := refreshInfo o.fileInfo o.properties },
         diskRename fs o.properties.fullPath fullNewName)
      else (rcFail, { o with lastError := env.renameErrorString }, fs)
    else if isDir o then
      if env.renameOk then (rcOk, o, diskRename fs o.properties.fullPath fullNewName)
      else (rcFail, o, fs)
    else (rcFail, o, fs)

/-- `moveChunk(chunkSize, destFolder, newName)`: the chunk size parameter is
unnamed and unused in the source; the call is forwarded verbatim to
`moveAtomically`. -/
def moveChunk (env : MoveEnv) (fs : DiskState) (chunkSize : Int)
    (destFolder newName : String) (o : CFileSystemObject) :
    FileOperationResultCode × CFileSystemObject × DiskState :=
  moveAtomically env fs destFolder newName o

/-- POSIX branch of `makeWritable(writeable)` exactly as the source has it:
the non-file guard returns false, and the non-Windows body is
`#error "Not implemented"` followed by `return false` - no chmod is made, so
the owner-write bit of the file mode never changes.  `ownerWritable` is the
owner-write bit of the on-disk mode; the pair returned is (result, bit after
the call). -/
def makeWritablePosixSource (writeable : Bool) (ownerWritable : Bool)
    (o : CFileSystemObject) : Bool × Bool :=
  if !isFile o then (false, ownerWritable)
  else (false, ownerWritable)

/-- Modelled from the spec: the POSIX behaviour the spec requires of
`makeWritable` (section 4.3 and design note in section 9), missing from the
source: for files, chmod sets the owner-write bit to the flag and succeeds. -/
def makeWritablePosixSpec (writeable : Bool) (ownerWritable : Bool)
    (o : CFileSystemObject) : Bool × Bool :=
  if !isFile o then (false, ownerWritable)
  else (true, writeable)

/-- FILE_ATTRIBUTE_READONLY. -/
def FILE_ATTRIBUTE_READONLY : Nat := 1

/-- Windows branch of `makeWritable(writeable)`: build the long-path form by
prefixing the native-separator path, read the attributes (`none` models
INVALID_FILE_ATTRIBUTES), then write them back with the read-only bit cleared
or set.  `toNative` is the toolkit's separator conversion (not part of the
excerpt).  The result carries the path handed to both attribute calls and
the attribute word passed to SetFileAttributesW, when that call is reached. -/
def makeWritableWinSource (toNative : String → String) (attrs : Option Nat)
    (setAttrsOk : Bool) (osErrorString : String) (writeable : Bool)
    (o : CFileSystemObject) : Bool × CFileSystemObject × String × Option Nat :=
  if !isFile o then (false, o, "", none)
  else
    let uncPath := "\\\\?\\" ++ toNative (fullAbsolutePath o)
    match attrs with
    | none => (false, { o with lastError := osErrorString }, uncPath, none)
    | some a =>
      let written := if writeable then a - a % 2 else a ||| FILE_ATTRIBUTE_READONLY
      if setAttrsOk then (true, o, uncPath, some written)
      else (false, { o with lastError := osErrorString }, uncPath, some written)

/-! Concrete states used to exercise the operations on explicit inputs. -/

/-- A stat record for an existing regular file `/tmp/a.txt`. -/
def sampleFileInfo : FileInfo :=
  { absoluteFilePath := "/tmp/a.txt", absolutePath := "/tmp", fileName := "a.txt"
    suffix := "txt", completeSuffix := "txt", baseName := "a", completeBaseName := "a"
    existsFlag := true, isFileFlag := true, isDirFlag := false
    createdAt := 100, lastModified := 200, sizeBytes := 10 }

/-- An existing regular file `/tmp/a.txt` with no copy attached. -/
def fileObjA : CFileSystemObject :=
  { fileInfo := sampleFileInfo
    properties := { fullPath := "/tmp/a.txt", parentFolder := "/tmp", fullName := "a.txt"
                    completeBaseName := "a", extension := "txt", existsOnDisk := true
                    type := File, size := 10, creationDate := 100, modificationDate := 200
                    hash := 11 }
    thisFile := none, destFile := none, lastError := "", rootFileSystemIdCached := UINT64_MAX }

/-- An existing regular file `/home/u/b.txt` with no copy attached. -/
def fileObjB : CFileSystemObject :=
  { fileInfo := { sampleFileInfo with
      absoluteFilePath := "/home/u/b.txt", absolutePath := "/home/u"
      fileName := "b.txt", baseName := "b", completeBaseName := "b" }
    properties := { fullPath := "/home/u/b.txt", parentFolder := "/home/u"
                    fullName := "b.txt", completeBaseName := "b", extension := "txt"
                    existsOnDisk := true, type := File, size := 3, creationDate := 100
                    modificationDate := 200, hash := 22 }
    thisFile := none, destFile := none, lastError := "", rootFileSystemIdCached := UINT64_MAX }

/-- An existing directory `/tmp/d`. -/
def dirObj : CFileSystemObject :=
  { fileInfo := { sampleFileInfo with
      absoluteFilePath := "/tmp/d", absolutePath := "/tmp"
      fileName := "d", suffix := "", completeSuffix := "", baseName := "d"
      completeBaseName := "d", isFileFlag := false, isDirFlag := true }
    properties := { fullPath := "/tmp/d", parentFolder := "/tmp", fullName := "d"
                    completeBaseName := "d", extension := "", existsOnDisk := true
                    type := Directory, size := 0, creationDate := 100
                    modificationDate := 200, hash := 33 }
    thisFile := none, destFile := none, lastError := "", rootFileSystemIdCached := UINT64_MAX }

/-- A vanished object: the cached snapshot says it does not exist. -/
def ghostObj : CFileSystemObject :=
  { fileObjA with properties := { fileObjA.properties with
      fullPath := "/tmp/gone.txt", fullName := "gone.txt", existsOnDisk := false
      type := Nonexistent } }

/-- The ".." pseudo-entry of some existing directory. -/
def cdupObj : CFileSystemObject :=
  { dirObj with properties := { dirObj.properties with
      fullPath := "/tmp/d/..", fullName := "..", completeBaseName := ".." } }

/-- `fileObjA` with a chunked copy in flight towards `/tmp/dest/a.txt`:
both handles attached and open, one chunk of 4 bytes already copied. -/
def inProgressObj : CFileSystemObject :=
  { fileObjA with
    thisFile := some { path := "/tmp/a.txt", isOpen := true, pos := 4 }
    destFile := some { path := "/tmp/dest/a.txt", isOpen := true, pos := 4 } }

/-- A disk on which `/tmp/b.txt` is an existing regular file. -/
def diskWithB : DiskState := [("/tmp/b.txt", File)]

/-- A disk on which the partial destination `/tmp/dest/a.txt` exists. -/
def diskWithPartialDest : DiskState := [("/tmp/dest/a.txt", File)]

/-- OS outcomes for a `copyChunk` call whose opens succeed, whose read yields
one byte, and whose write reports 0 bytes written (a short write). -/
def shortWriteEnv : CopyChunkEnv :=
  { openSrcOk := true, openSrcErrorString := "", openDstOk := true
    openDstErrorString := "", readData := [65], bytesWritten := 0
    srcHasError := false, srcErrorString := "read failed", dstErrorString := "write failed" }

/-- OS outcomes for a rename that would succeed. -/
def renameOkEnv : MoveEnv := { renameOk := true, renameErrorString := "" }

/-! ## Helper lemmas -/

/-- A lookup among entries whose keys all differ from `p` finds nothing. -/
theorem lookup_eq_none_of_keys_ne (l : List (String × FileSystemObjectType)) (p : String)
    (h : ∀ e ∈ l, e.1 ≠ p) : l.lookup p = none := by
  induction l with
  | nil => rfl
  | cons e t ih =>
    have he : e.1 ≠ p := h e (List.mem_cons_self e t)
    have hb : (p == e.1) = false := beq_eq_false_iff_ne.mpr (fun hh => he hh.symm)
    simp only [List.lookup, hb]
    exact ih (fun x hx => h x (List.mem_cons_of_mem e hx))

/-- Filtering away every entry with key `p` makes `p` absent. -/
theorem diskHas_filter_self (fs : DiskState) (p : String) :
    diskHas (fs.filter (fun e => e.1 != p)) p = false := by
  unfold diskHas diskLookup
  rw [lookup_eq_none_of_keys_ne]
  · rfl
  · intro e he
    simpa [bne_iff_ne] using List.of_mem_filter he

/-- The hash `refreshInfo` writes is the fasthash64 of the UTF-8 bytes of the
absolute path, with seed 0, whatever the rest of the stat record says. -/
theorem refreshInfo_hash (fi : FileInfo) (props : CFileSystemObjectProperties) :
    (refreshInfo fi props).hash = fasthash64 (utf8Bytes fi.absoluteFilePath) 0 := by
  simp only [refreshInfo, apply_ite CFileSystemObjectProperties.hash, ite_self]

/-- `pathHierarchy`'s chain is strictly descending in length. -/
theorem pathHierarchyFrom_chain (parent : String → String) (cur : String) :
    List.Chain' (fun a b : String => b.length < a.length)
      (cur :: pathHierarchyFrom parent cur) := by
  generalize hgen : cur.length = n
  induction n using Nat.strong_induction_on generalizing cur with
  | _ n ih =>
    rw [pathHierarchyFrom]
    split
    · rename_i h
      rw [List.chain'_cons]
      exact ⟨h, ih (parent cur).length (by omega) (parent cur) rfl⟩
    · exact List.chain'_singleton cur

/-- The last element of `pathHierarchy`'s chain is a fixed point of the
stopping test: its parent is no shorter. -/
theorem pathHierarchyFrom_last (parent : String → String) (cur : String) :
    ¬ ((parent ((cur :: pathHierarchyFrom parent cur).getLastD "")).length
        < ((cur :: pathHierarchyFrom parent cur).getLastD "").length) := by
  generalize hgen : cur.length = n
  induction n using Nat.strong_induction_on generalizing cur with
  | _ n ih =>
    rw [pathHierarchyFrom]
    split
    · rename_i h
      rw [List.getLastD_cons, List.getLastD_cons]
      have hrec := ih (parent cur).length (by omega) (parent cur) rfl
      rwa [List.getLastD_cons] at hrec
    · rename_i h
      simpa [List.getLastD_cons] using h

/-! ## Claims -/

/-- Claim C8: `moveChunk` ignores the chunk size and is exactly
`moveAtomically` at the same destination and name, with the same result,
object, and disk effect. -/
theorem C8_moveChunk_delegates (env : MoveEnv) (fs : DiskState)
    (chunkSize chunkSize' : Int) (destFolder newName : String) (o : CFileSystemObject) :
    moveChunk env fs chunkSize destFolder newName o =
      moveAtomically env fs destFolder newName o ∧
    moveChunk env fs chunkSize destFolder newName o =
      moveChunk env fs chunkSize' destFolder newName o :=
  ⟨rfl, rfl⟩

/-- Witness for C8 at a concrete call. -/
theorem C8_moveChunk_delegates_witness :
    moveChunk renameOkEnv diskWithB 4096 "/tmp" "" fileObjA =
      moveAtomically renameOkEnv diskWithB "/tmp" "" fileObjA ∧
    moveChunk renameOkEnv diskWithB 4096 "/tmp" "" fileObjA =
      moveChunk renameOkEnv diskWithB 1 "/tmp" "" fileObjA :=
  C8_moveChunk_delegates renameOkEnv diskWithB 4096 1 "/tmp" "" fileObjA

/-- Claim C9: `isEmptyDir` is false for every object that is not a directory,
whatever the directory listing would have said. -/
theorem C9_isEmptyDir_nonDirectory (listingIsEmpty : Bool) (o : CFileSystemObject)
    (h : o.properties.type ≠ Directory) :
    isEmptyDir listingIsEmpty o = false := by
  simp [isEmptyDir, isDir, h]

/-- Witness for C9: a file, even with an empty listing claimed, is not an
empty directory. -/
theorem C9_isEmptyDir_nonDirectory_witness :
    fileObjA.properties.type ≠ Directory ∧ isEmptyDir true fileObjA = false :=
  ⟨by decide, C9_isEmptyDir_nonDirectory true fileObjA (by decide)⟩

/-- Claim C10: `setDirSize` changes only the cached size; every other cached
property, both handles, the error string, the memoized volume id and the stat
record are untouched, and the function takes and returns no disk state. -/
theorem C10_setDirSize_frame (sz : Nat) (o : CFileSystemObject) :
    (setDirSize sz o).properties.size = sz ∧
    (setDirSize sz o).properties.hash = o.properties.hash ∧
    (setDirSize sz o).properties.fullPath = o.properties.fullPath ∧
    (setDirSize sz o).properties.parentFolder = o.properties.parentFolder ∧
    (setDirSize sz o).properties.fullName = o.properties.fullName ∧
    (setDirSize sz o).properties.completeBaseName = o.properties.completeBaseName ∧
    (setDirSize sz o).properties.extension = o.properties.extension ∧
    (setDirSize sz o).properties.type = o.properties.type ∧
    (setDirSize sz o).properties.existsOnDisk = o.properties.existsOnDisk ∧
    (setDirSize sz o).properties.creationDate = o.properties.creationDate ∧
    (setDirSize sz o).properties.modificationDate = o.properties.modificationDate ∧
    (setDirSize sz o).thisFile = o.thisFile ∧
    (setDirSize sz o).destFile = o.destFile ∧
    (setDirSize sz o).lastError = o.lastError ∧
    (setDirSize sz o).rootFileSystemIdCached = o.rootFileSystemIdCached ∧
    (setDirSize sz o).fileInfo = o.fileInfo :=
  ⟨rfl, rfl, rfl, rfl, rfl, rfl, rfl, rfl, rfl, rfl, rfl, rfl, rfl, rfl, rfl, rfl⟩

/-- Witness for C10 at a concrete object and size. -/
theorem C10_setDirSize_frame_witness :
    (setDirSize 12345 dirObj).properties.size = 12345 ∧
    (setDirSize 12345 dirObj).properties.hash = dirObj.properties.hash :=
  ⟨(C10_setDirSize_frame 12345 dirObj).1, (C10_setDirSize_frame 12345 dirObj).2.1⟩

/-- Claim C1 is refuted by the short-write case: on a fresh object, with both
opens succeeding, a non-empty read and a write that reports fewer bytes than
read, `copyChunk` returns `rcFail`, yet both handles stay attached and open
and `copyOperationInProgress` still reports `true`. -/
theorem C1_copyChunk_counterexample :
    (copyChunk shortWriteEnv 4096 "/tmp/dest/" "" fileObjA).1 = rcFail ∧
    (copyChunk shortWriteEnv 4096 "/tmp/dest/" "" fileObjA).2.thisFile ≠ none ∧
    (copyChunk shortWriteEnv 4096 "/tmp/dest/" "" fileObjA).2.destFile ≠ none ∧
    copyOperationInProgress (copyChunk shortWriteEnv 4096 "/tmp/dest/" "" fileObjA).2 = true := by
  refine ⟨rfl, ?_, ?_, rfl⟩ <;> decide

/-- Claim C1 (amended): when either open fails, `copyChunk` returns `rcFail`
with both handles released and `copyOperationInProgress` false; but when the
read is non-empty and the write is short, it returns `rcFail` while keeping
both handles attached and open, so `copyOperationInProgress` stays true. -/
theorem C1_copyChunk_fail_handles (env : CopyChunkEnv) (chunkSize : Int)
    (destFolder newName : String) (o : CFileSystemObject)
    (hcons : handlesConsistent o = true) :
    (copyOperationInProgress o = false →
      (env.openSrcOk = false ∨ env.openDstOk = false) →
      (copyChunk env chunkSize destFolder newName o).1 = rcFail ∧
      (copyChunk env chunkSize destFolder newName o).2.thisFile = none ∧
      (copyChunk env chunkSize destFolder newName o).2.destFile = none ∧
      copyOperationInProgress (copyChunk env chunkSize destFolder newName o).2 = false) ∧
    ((env.readData.take chunkSize.toNat).isEmpty = false →
      env.bytesWritten ≠ (env.readData.take chunkSize.toNat).length →
      (copyOperationInProgress o = true ∨ (env.openSrcOk = true ∧ env.openDstOk = true)) →
      (copyChunk env chunkSize destFolder newName o).1 = rcFail ∧
      copyOperationInProgress (copyChunk env chunkSize destFolder newName o).2 = true) := by
  constructor
  · intro hnp hopen
    rcases hopen with h | h
    · simp only [copyChunk]
      rw [hnp]
      simp [copyOperationInProgress, h]
    · cases hs : env.openSrcOk
      · simp only [copyChunk]
        rw [hnp]
        simp [copyOperationInProgress, hs]
      · simp only [copyChunk]
        rw [hnp]
        simp [copyOperationInProgress, hs, h]
  · intro hdata hw hentry
    rw [List.length_take] at hw
    cases hp : copyOperationInProgress o
    · rcases hentry with hip | ⟨hs, hd⟩
      · rw [hp] at hip
        exact absurd hip (by simp)
      · simp only [copyChunk]
        rw [hp]
        simp [copyChunkStep, copyOperationInProgress, hs, hd, hdata, hw, beq_iff_eq]
    · rcases ht : o.thisFile with _ | src <;> rcases hd2 : o.destFile with _ | dst
      · rw [copyOperationInProgress, ht, hd2] at hp
        exact absurd hp (by simp)
      · simp [handlesConsistent, ht, hd2] at hcons
      · simp [handlesConsistent, ht, hd2] at hcons
      · have hopen : src.isOpen = true ∧ dst.isOpen = true := by
          simpa [handlesConsistent, ht, hd2, Bool.and_eq_true] using hcons
        simp only [copyChunk]
        rw [hp]
        simp [copyChunkStep, copyOperationInProgress, ht, hd2, hopen.1, hopen.2,
          hdata, hw, beq_iff_eq]

/-- Witness for the amended C1: an open failure releases everything, and the
short write of the counterexample environment keeps the copy in progress. -/
theorem C1_copyChunk_fail_handles_witness :
    ((copyChunk { shortWriteEnv with openSrcOk := false } 4096 "/tmp/dest/" "" fileObjA).1 = rcFail ∧
     (copyChunk { shortWriteEnv with openSrcOk := false } 4096 "/tmp/dest/" "" fileObjA).2.thisFile = none ∧
     (copyChunk { shortWriteEnv with openSrcOk := false } 4096 "/tmp/dest/" "" fileObjA).2.destFile = none ∧
     copyOperationInProgress
       (copyChunk { shortWriteEnv with openSrcOk := false } 4096 "/tmp/dest/" "" fileObjA).2 = false) ∧
    ((copyChunk shortWriteEnv 4096 "/tmp/dest/" "" fileObjA).1 = rcFail ∧
     copyOperationInProgress (copyChunk shortWriteEnv 4096 "/tmp/dest/" "" fileObjA).2 = true) :=
  ⟨(C1_copyChunk_fail_handles { shortWriteEnv with openSrcOk := false } 4096 "/tmp/dest/" ""
      fileObjA rfl).1 rfl (Or.inl rfl),
   (C1_copyChunk_fail_handles shortWriteEnv 4096 "/tmp/dest/" "" fileObjA rfl).2
     rfl (by decide) (Or.inr ⟨rfl, rfl⟩)⟩

/-- Claim C2: `moveAtomically` returns `rcObjectDoesntExist` when the cached
snapshot says the source does not exist, `rcFail` on a ".." entry, and
`rcTargetAlreadyExists` when the computed destination exists and the source
is a directory or the existing destination is a file; in all three cases the
object and the disk are returned unchanged. -/
theorem C2_moveAtomically_guards (env : MoveEnv) (fs : DiskState)
    (location newName : String) (o : CFileSystemObject) :
    (o.properties.existsOnDisk = false →
      moveAtomically env fs location newName o = (rcObjectDoesntExist, o, fs)) ∧
    (o.properties.existsOnDisk = true → isCdUp o = true →
      moveAtomically env fs location newName o = (rcFail, o, fs)) ∧
    (o.properties.existsOnDisk = true → isCdUp o = false →
      diskHas fs (location ++ "/" ++
        (if newName.isEmpty then o.properties.fullName else newName)) = true →
      (isDir o = true ∨ diskIsFile fs (location ++ "/" ++
        (if newName.isEmpty then o.properties.fullName else newName)) = true) →
      moveAtomically env fs location newName o = (rcTargetAlreadyExists, o, fs)) := by
  refine ⟨fun h1 => ?_, fun h1 h2 => ?_, fun h1 h2 h3 h4 => ?_⟩
  · simp [moveAtomically, h1]
  · simp [moveAtomically, h1, h2]
  · rcases h4 with h4 | h4 <;> simp [moveAtomically, h1, h2, h3, h4]

/-- Witness for C2: the three guards at concrete states - a vanished file, a
".." entry, and a file colliding with the existing file `/tmp/b.txt`. -/
theorem C2_moveAtomically_guards_witness :
    moveAtomically renameOkEnv diskWithB "/tmp" "" ghostObj =
      (rcObjectDoesntExist, ghostObj, diskWithB) ∧
    moveAtomically renameOkEnv diskWithB "/tmp" "" cdupObj = (rcFail, cdupObj, diskWithB) ∧
    moveAtomically renameOkEnv diskWithB "/tmp" "b.txt" fileObjA =
      (rcTargetAlreadyExists, fileObjA, diskWithB) :=
  ⟨(C2_moveAtomically_guards renameOkEnv diskWithB "/tmp" "" ghostObj).1 rfl,
   (C2_moveAtomically_guards renameOkEnv diskWithB "/tmp" "" cdupObj).2.1 rfl rfl,
   (C2_moveAtomically_guards renameOkEnv diskWithB "/tmp" "b.txt" fileObjA).2.2 rfl rfl
     (by decide) (Or.inr (by decide))⟩

/-- Claim C3: on every object satisfying the asserted dual-handle invariant,
and whose in-flight destination (when one is attached) exists on disk - it was
created by the successful open - `cancelCopy` releases both handles, returns
`rcOk` exactly when the attached partial destination is gone from the
resulting disk, and whenever it returns `rcOk` no attached destination file
remains. -/
theorem C3_cancelCopy_removes_destination (removeOsError : Bool) (fs : DiskState)
    (o : CFileSystemObject) (hcons : handlesConsistent o = true)
    (hdst : ∀ dst : FileHandle, o.destFile = some dst → diskHas fs dst.path = true) :
    ((cancelCopy removeOsError fs o).2.1.thisFile = none ∧
     (cancelCopy removeOsError fs o).2.1.destFile = none) ∧
    ((cancelCopy removeOsError fs o).1 = rcOk ↔
      ∀ dst : FileHandle, o.destFile = some dst →
        diskHas (cancelCopy removeOsError fs o).2.2 dst.path = false) ∧
    ((cancelCopy removeOsError fs o).1 = rcOk →
      ∀ dst : FileHandle, o.destFile = some dst →
        diskHas (cancelCopy removeOsError fs o).2.2 dst.path = false) := by
  rcases ht : o.thisFile with _ | src <;> rcases hd : o.destFile with _ | dst
  · -- nothing attached: the else branch is the identity and reports rcOk
    have hp : copyOperationInProgress o = false := by
      rw [copyOperationInProgress, ht, hd]
    have hc : cancelCopy removeOsError fs o = (rcOk, o, fs) := by
      simp [cancelCopy, hp]
    rw [hc]
    refine ⟨⟨ht, hd⟩, ?_, ?_⟩
    · constructor
      · intro _ dst' hdst'
        exact absurd hdst' (by simp)
      · intro _
        rfl
    · intro _ dst' hdst'
      exact absurd hdst' (by simp)
  · simp [handlesConsistent, ht, hd] at hcons
  · simp [handlesConsistent, ht, hd] at hcons
  · have hopen : src.isOpen = true ∧ dst.isOpen = true := by
      simpa [handlesConsistent, ht, hd, Bool.and_eq_true] using hcons
    have hp : copyOperationInProgress o = true := by
      simp [copyOperationInProgress, ht, hd, hopen.1, hopen.2]
    have hin : diskHas fs dst.path = true := hdst dst hd
    cases hre : removeOsError
    · -- the remove succeeds and erases the destination entry
      have hc : cancelCopy false fs o =
          (rcOk, { o with thisFile := none, destFile := none },
           fs.filter (fun e => e.1 != dst.path)) := by
        simp [cancelCopy, hp, hd, diskRemove, hin]
      rw [hc]
      refine ⟨⟨rfl, rfl⟩, ?_, ?_⟩
      · constructor
        · intro _ dst' hdst'
          injection hdst' with hh
          subst hh
          exact diskHas_filter_self fs dst.path
        · intro _
          rfl
      · intro _ dst' hdst'
        injection hdst' with hh
        subst hh
        exact diskHas_filter_self fs dst.path
    · -- the remove fails: rcFail, and the destination entry is still there
      have hc : cancelCopy true fs o =
          (rcFail, { o with thisFile := none, destFile := none }, fs) := by
        simp [cancelCopy, hp, hd, diskRemove, hin]
      rw [hc]
      refine ⟨⟨rfl, rfl⟩, ?_, ?_⟩
      · constructor
        · intro habs
          exact absurd habs (by simp)
        · intro hall
          have hgone := hall dst rfl
          rw [hin] at hgone
          exact absurd hgone (by simp)
      · intro habs
        exact absurd habs (by simp)

/-- Witness for C3: cancelling the in-flight copy of `inProgressObj` with the
partial destination present removes `/tmp/dest/a.txt`, releases both handles
and returns `rcOk`. -/
theorem C3_cancelCopy_removes_destination_witness :
    (cancelCopy false diskWithPartialDest inProgressObj).1 = rcOk ∧
    (cancelCopy false diskWithPartialDest inProgressObj).2.1.thisFile = none ∧
    (cancelCopy false diskWithPartialDest inProgressObj).2.1.destFile = none ∧
    diskHas (cancelCopy false diskWithPartialDest inProgressObj).2.2 "/tmp/dest/a.txt" = false := by
  have h := C3_cancelCopy_removes_destination false diskWithPartialDest inProgressObj rfl
    (fun dst hdst => by injection hdst with hh; subst hh; decide)
  exact ⟨by decide, h.1.1, h.1.2, by decide⟩

/-- Claim C4: object equality is hash equality; the hash written by
`refreshInfo` is fasthash64 (seed 0) of the UTF-8 bytes of the absolute path;
and two refreshes over the same absolute path produce the same hash whatever
the rest of the stat records say. -/
theorem C4_equality_iff_hash (a b : CFileSystemObject) (fi fi' : FileInfo)
    (props props' : CFileSystemObjectProperties)
    (hpath : fi.absoluteFilePath = fi'.absoluteFilePath) :
    (objectEquals a b = true ↔ hashOf a = hashOf b) ∧
    (refreshInfo fi props).hash = fasthash64 (utf8Bytes fi.absoluteFilePath) 0 ∧
    (refreshInfo fi props).hash = (refreshInfo fi' props').hash := by
  refine ⟨?_, refreshInfo_hash fi props, ?_⟩
  · simp [objectEquals, hashOf]
  · rw [refreshInfo_hash, refreshInfo_hash, hpath]

/-- Witness for C4 at two concrete objects and two stat records sharing the
path `/tmp/a.txt`. -/
theorem C4_equality_iff_hash_witness :
    (objectEquals fileObjA fileObjB = true ↔ hashOf fileObjA = hashOf fileObjB) ∧
    (refreshInfo sampleFileInfo emptyProperties).hash =
      fasthash64 (utf8Bytes sampleFileInfo.absoluteFilePath) 0 ∧
    (refreshInfo sampleFileInfo emptyProperties).hash =
      (refreshInfo { sampleFileInfo with sizeBytes := 999 } fileObjA.properties).hash :=
  C4_equality_iff_hash fileObjA fileObjB sampleFileInfo
    { sampleFileInfo with sizeBytes := 999 } emptyProperties fileObjA.properties rfl

/-- Claim C5: `isMovableTo` is true exactly when both resolved volume ids
differ from the `UINT64_MAX` sentinel and are equal; in particular it is
false whenever either resolved id is the sentinel. -/
theorem C5_isMovableTo_iff (queryA queryB : Option Nat) (errA errB : String)
    (a b : CFileSystemObject) :
    ((isMovableTo queryA queryB errA errB a b).1 = true ↔
      ((rootFileSystemId queryA errA a).1 ≠ UINT64_MAX ∧
       (rootFileSystemId queryB errB b).1 ≠ UINT64_MAX ∧
       (rootFileSystemId queryA errA a).1 = (rootFileSystemId queryB errB b).1)) ∧
    (((rootFileSystemId queryA errA a).1 = UINT64_MAX ∨
       (rootFileSystemId queryB errB b).1 = UINT64_MAX) →
      (isMovableTo queryA queryB errA errB a b).1 = false) := by
  constructor
  · simp only [isMovableTo, Bool.and_eq_true, beq_iff_eq, bne_iff_ne, ne_eq]
    tauto
  · intro h
    rcases h with h | h <;>
      simp [isMovableTo, h]

/-- Witness for C5: two objects whose volume queries both answer 5 satisfy
the characterization, and a failed query on the left forces false. -/
theorem C5_isMovableTo_iff_witness :
    ((isMovableTo (some 5) (some 5) "" "" fileObjA fileObjB).1 = true ↔
      ((rootFileSystemId (some 5) "" fileObjA).1 ≠ UINT64_MAX ∧
       (rootFileSystemId (some 5) "" fileObjB).1 ≠ UINT64_MAX ∧
       (rootFileSystemId (some 5) "" fileObjA).1 = (rootFileSystemId (some 5) "" fileObjB).1)) ∧
    (isMovableTo none (some 5) "" "" fileObjA fileObjB).1 = false :=
  ⟨(C5_isMovableTo_iff (some 5) (some 5) "" "" fileObjA fileObjB).1,
   (C5_isMovableTo_iff none (some 5) "" "" fileObjA fileObjB).2 (Or.inl (by decide))⟩

/-- Claim C6: for every parent-path function and every object,
`pathHierarchy` is a total function whose first element is the object's own
path, whose element lengths strictly decrease, and whose last element is a
fixed point of the stopping test (its parent is no shorter). -/
theorem C6_pathHierarchy_descends (parent : String → String) (o : CFileSystemObject) :
    (pathHierarchy parent o).head? = some (fullAbsolutePath o) ∧
    List.Chain' (fun a b : String => b.length < a.length) (pathHierarchy parent o) ∧
    ¬ ((parent ((pathHierarchy parent o).getLastD "")).length <
        ((pathHierarchy parent o).getLastD "").length) :=
  ⟨rfl, pathHierarchyFrom_chain parent (fullAbsolutePath o),
   pathHierarchyFrom_last parent (fullAbsolutePath o)⟩

/-- Witness for C6 with the drop-last-character parent function on
`/tmp/a.txt`. -/
theorem C6_pathHierarchy_descends_witness :
    (pathHierarchy (fun s : String => s.dropRight 1) fileObjA).head? = some (fullAbsolutePath fileObjA) ∧
    List.Chain' (fun a b : String => b.length < a.length)
      (pathHierarchy (fun s : String => s.dropRight 1) fileObjA) ∧
    ¬ (((fun s : String => s.dropRight 1)
          ((pathHierarchy (fun s : String => s.dropRight 1) fileObjA).getLastD "")).length <
        ((pathHierarchy (fun s : String => s.dropRight 1) fileObjA).getLastD "").length) :=
  C6_pathHierarchy_descends (fun s : String => s.dropRight 1) fileObjA

/-- Claim C7: the non-file guard holds, and the Windows branch uses the
long-path prefix; but the POSIX branch contradicts the claim - the source is
`#error "Not implemented"` with `return false`, so on a writable flag over a
read-only file it reports failure and leaves the owner-write bit untouched,
where the spec-modelled chmod toggles the bit and succeeds. -/
theorem C7_makeWritable_posix_unimplemented :
    makeWritablePosixSource true false fileObjA = (false, false) ∧
    makeWritablePosixSpec true false fileObjA = (true, true) ∧
    makeWritablePosixSource true false dirObj = (false, false) ∧
    makeWritablePosixSpec true false dirObj = (false, false) ∧
    makeWritableWinSource (fun s => s) (some 3) true "" true fileObjA =
      (true, fileObjA, "\\\\?\\/tmp/a.txt", some 2) :=
  ⟨rfl, rfl, rfl, rfl, rfl⟩
